import Mathlib

/-!
Shallow embedding of `src/compliance_checker.py` (KSI_Engine).

The Python module checks S3 buckets against three compliance rules,
builds a consolidated CCE (Continuous Compliance Evidence) payload per
bucket, sends it to an external "Vanguard" sink, and triggers a
remediation SQS message when the bucket's overall status is FAIL.

Modelling choices:
* boto3 calls are modelled by per-bucket collaborator responses
  (`S3Response`): either a successful value or a `ClientError` carrying
  its error code string.
* A Python `raise` that escapes a check is modelled by `Except.error`
  carrying the error code.
* `datetime.datetime.utcnow().isoformat()` is modelled by an explicit
  `now : String` argument threaded to the functions that call it.
* Side effects (HTTP post of the evidence payload, SQS send of the
  remediation message, `logger` calls) are modelled by explicit output
  fields: lists of attempted/delivered payloads and messages, and a list
  of log lines.  The outcome of each external send is part of the
  environment (`evidenceDeliveryOk`, `remediationSendOk`): `false`
  models `requests.exceptions.RequestException` / `ClientError` being
  raised by the sink call, which the source catches and logs.
* `json.dumps` wrapping of the handler's body dict is elided: the body
  is modelled as a record with the dict's `message` / `error` keys.
-/

/-- Mirrors `AppConfig`: the environment-derived configuration.  The
source validates that the first three variables are set; here they are
plain strings of an already-validated configuration. -/
structure AppConfig where
  vanguard_agent_api_url : String
  vanguard_api_key : String
  sqs_queue_url : String
  remediation_path : String
deriving DecidableEq

/-- The default of `REMEDIATION_PATH` in `AppConfig.__init__`. -/
def default_remediation_path : String :=
  "https://github.com/wrestcody/Praetorium_Nexus/blob/main/remediation_playbooks/s3_public_access_fix.tf"

/-- A finding produced by one check: the dict
`{"check_id": ..., "status": ..., "details": ...}`. -/
structure Finding where
  check_id : String
  status : String
  details : String
deriving DecidableEq

/-- Outcome of one boto3 S3 call: either the parsed value or a
`botocore.exceptions.ClientError` identified by its error code. -/
inductive S3Response (α : Type) where
  | ok (value : α)
  | clientError (code : String)
deriving DecidableEq

/-- The `PublicAccessBlockConfiguration` dict: each key may be absent
(`none`); `config.get(key, False)` is `(·.getD false)`. -/
structure PABConfig where
  blockPublicAcls : Option Bool
  ignorePublicAcls : Option Bool
  blockPublicPolicy : Option Bool
  restrictPublicBuckets : Option Bool
deriving DecidableEq

/-- The `get_bucket_encryption` response:
`encryption.get('ServerSideEncryptionConfiguration', {}).get('Rules')`,
`none` when either key is absent; Python truthiness of the list means
"present and non-empty". -/
structure EncryptionConfig where
  serverSideEncryptionRules : Option (List String)
deriving DecidableEq

/-- The `get_bucket_versioning` response: `versioning.get('Status')`. -/
structure VersioningConfig where
  status : Option String
deriving DecidableEq

/-- Mirrors `check_public_access_block`.  On a successful fetch, PASS
iff all four flags are present and true; a `ClientError` with code
`NoSuchPublicAccessBlockConfiguration` yields a FAIL finding; any other
`ClientError` is re-raised (`Except.error`). -/
def check_public_access_block (resp : S3Response PABConfig) : Except String Finding :=
  match resp with
  | S3Response.ok config =>
      let is_compliant :=
        config.blockPublicAcls.getD false && config.ignorePublicAcls.getD false &&
        config.blockPublicPolicy.getD false && config.restrictPublicBuckets.getD false
      let details :=
        if is_compliant then "Public access block is enabled."
        else "Public access block is not fully enabled."
      Except.ok { check_id := "S3.1_Public_Access_Blocked"
                  status := if is_compliant then "PASS" else "FAIL"
                  details := details }
  | S3Response.clientError code =>
      if code = "NoSuchPublicAccessBlockConfiguration" then
        Except.ok { check_id := "S3.1_Public_Access_Blocked"
                    status := "FAIL"
                    details := "Public access block configuration is missing." }
      else
        Except.error code

/-- Mirrors `check_default_encryption`: PASS iff the rules list is
present and non-empty; code `ServerSideEncryptionConfigurationNotFoundError`
yields FAIL; any other `ClientError` is re-raised. -/
def check_default_encryption (resp : S3Response EncryptionConfig) : Except String Finding :=
  match resp with
  | S3Response.ok encryption =>
      let is_compliant :=
        match encryption.serverSideEncryptionRules with
        | some (_ :: _) => true
        | _ => false
      let details :=
        if is_compliant then "Default encryption (AES256 or KMS) is enabled."
        else "Default encryption is not enabled."
      Except.ok { check_id := "S3.5_Server_Side_Encryption"
                  status := if is_compliant then "PASS" else "FAIL"
                  details := details }
  | S3Response.clientError code =>
      if code = "ServerSideEncryptionConfigurationNotFoundError" then
        Except.ok { check_id := "S3.5_Server_Side_Encryption"
                    status := "FAIL"
                    details := "Default encryption configuration is missing." }
      else
        Except.error code

/-- Mirrors `check_bucket_versioning`: PASS iff the reported status is
exactly `Enabled`; every `ClientError` is re-raised. -/
def check_bucket_versioning (resp : S3Response VersioningConfig) : Except String Finding :=
  match resp with
  | S3Response.ok versioning =>
      let is_compliant := versioning.status = some "Enabled"
      let details :=
        if is_compliant then "Bucket versioning is enabled."
        else "Bucket versioning is not enabled."
      Except.ok { check_id := "S3.6_Bucket_Versioning"
                  status := if is_compliant then "PASS" else "FAIL"
                  details := details }
  | S3Response.clientError code =>
      Except.error code

/-- The CCE payload dict built by `create_cce_payload`. -/
structure CCEPayload where
  engine_id : String
  timestamp : String
  target_id : String
  control_id : String
  status : String
  findings : List Finding
  remediation_path : String
deriving DecidableEq

/-- Mirrors `create_cce_payload`. -/
def create_cce_payload (config : AppConfig) (now : String) (bucket_arn : String)
    (findings : List Finding) (overall_status : String) : CCEPayload :=
  { engine_id := "KSI_Engine"
    timestamp := now ++ "Z"
    target_id := bucket_arn
    control_id := "NIST-800-53-CM-6"
    status := overall_status
    findings := findings
    remediation_path := config.remediation_path }

/-- Mirrors `send_cce_to_vanguard`: the HTTP post either succeeds or
raises `RequestException`; both branches only log (the exception is
caught inside the function, nothing propagates). Returns the log lines. -/
def send_cce_to_vanguard (deliveryOk : Bool) (cce_payload : CCEPayload) : List String :=
  if deliveryOk then
    ["Successfully sent CCE to Vanguard for target " ++ cce_payload.target_id]
  else
    ["Failed to send CCE to Vanguard for target " ++ cce_payload.target_id]

/-- The SQS message body built by `trigger_remediation`. -/
structure RemediationMessage where
  target_id : String
  remediation_path : String
  timestamp : String
deriving DecidableEq

/-- Mirrors `trigger_remediation`: builds the message body, attempts the
SQS send (a `ClientError` is caught and logged, nothing propagates).
Returns the attempted message together with the log lines. -/
def trigger_remediation (config : AppConfig) (now : String) (sendOk : Bool)
    (bucket_arn : String) : RemediationMessage × List String :=
  let message_body : RemediationMessage :=
    { target_id := bucket_arn
      remediation_path := config.remediation_path
      timestamp := now }
  (message_body,
    if sendOk then ["Successfully sent remediation trigger for " ++ bucket_arn]
    else ["Failed to send remediation trigger for " ++ bucket_arn])

/-- The per-bucket environment: the bucket's name, the collaborator
responses its three checks will receive, and whether each external send
succeeds. -/
structure BucketEnv where
  name : String
  pab : S3Response PABConfig
  encryption : S3Response EncryptionConfig
  versioning : S3Response VersioningConfig
  evidenceDeliveryOk : Bool
  remediationSendOk : Bool
deriving DecidableEq

/-- The `findings` list built in `process_bucket`'s try-block: the three
checks run in order; the first raised error aborts the construction. -/
def bucket_findings (env : BucketEnv) : Except String (List Finding) := do
  let f1 ← check_public_access_block env.pab
  let f2 ← check_default_encryption env.encryption
  let f3 ← check_bucket_versioning env.versioning
  pure [f1, f2, f3]

/-- The `overall_status` expression of `process_bucket` (source line
145): `"PASS" if all(f['status'] == 'PASS' for f in findings) else "FAIL"`. -/
def overall_status_of (findings : List Finding) : String :=
  if findings.all (fun f => f.status == "PASS") then "PASS" else "FAIL"

/-- Observable effects of one `process_bucket` call. -/
structure ProcessOutcome where
  result : Bool
  attemptedEvidence : List CCEPayload
  deliveredEvidence : List CCEPayload
  attemptedRemediation : List RemediationMessage
  logs : List String
deriving DecidableEq

/-- Mirrors `process_bucket`: run the three checks, aggregate the
overall status, build and send the CCE payload, trigger remediation on
FAIL, return `true`; any exception raised inside the try-block is caught,
logged, and turned into `false`. -/
def process_bucket (config : AppConfig) (now : String) (env : BucketEnv) : ProcessOutcome :=
  let bucket_arn := "arn:aws:s3:::" ++ env.name
  match bucket_findings env with
  | Except.ok findings =>
      let overall_status := overall_status_of findings
      let cce_payload := create_cce_payload config now bucket_arn findings overall_status
      let evidenceLogs := send_cce_to_vanguard env.evidenceDeliveryOk cce_payload
      if overall_status == "FAIL" then
        let rem := trigger_remediation config now env.remediationSendOk bucket_arn
        { result := true
          attemptedEvidence := [cce_payload]
          deliveredEvidence := if env.evidenceDeliveryOk then [cce_payload] else []
          attemptedRemediation := [rem.1]
          logs := evidenceLogs ++ rem.2 }
      else
        { result := true
          attemptedEvidence := [cce_payload]
          deliveredEvidence := if env.evidenceDeliveryOk then [cce_payload] else []
          attemptedRemediation := []
          logs := evidenceLogs }
  | Except.error e =>
      { result := false
        attemptedEvidence := []
        deliveredEvidence := []
        attemptedRemediation := []
        logs := ["Failed to process bucket " ++ env.name ++ ": " ++ e] }

/-- The `list_buckets` call: either the bucket list (each with the
environment its processing will see) or a `ClientError`. -/
inductive ListBucketsResponse where
  | ok (buckets : List BucketEnv)
  | clientError (code : String)
deriving DecidableEq

/-- The dict serialized into the handler's response body: it has either
a `message` key (success path) or an `error` key (listing failure). -/
structure LambdaBody where
  message : Option String
  error : Option String
deriving DecidableEq

/-- The handler's return value plus the observable per-bucket effects of
the invocation. `statusCode` and `body` are what the caller receives. -/
structure InvocationOutcome where
  statusCode : Nat
  body : LambdaBody
  outcomes : List ProcessOutcome
  processed_buckets : Nat
  logs : List String
deriving DecidableEq

/-- Mirrors `lambda_handler`: list the buckets (a `ClientError` there
returns a 500 with the error in the body), process each in order
counting the `true` results, and return a 200 whose body message reports
the processed count. -/
def lambda_handler (config : AppConfig) (now : String)
    (listing : ListBucketsResponse) : InvocationOutcome :=
  match listing with
  | ListBucketsResponse.clientError code =>
      { statusCode := 500
        body := { message := none, error := some code }
        outcomes := []
        processed_buckets := 0
        logs := ["An unexpected error occurred during bucket listing: " ++ code] }
  | ListBucketsResponse.ok buckets =>
      let outcomes := buckets.map (process_bucket config now)
      let processed_buckets := outcomes.countP (fun o => o.result)
      { statusCode := 200
        body := { message := some ("Successfully processed " ++ toString processed_buckets ++ " buckets.")
                  error := none }
        outcomes := outcomes
        processed_buckets := processed_buckets
        logs := ["Successfully processed " ++ toString processed_buckets ++ " buckets."] }

/- Concrete environments used by witnesses and counterexamples. -/

/-- A fully-populated configuration with the default remediation path. -/
def cfgEx : AppConfig :=
  { vanguard_agent_api_url := "https://vanguard.example/api"
    vanguard_api_key := "test-key"
    sqs_queue_url := "https://sqs.example/queue"
    remediation_path := default_remediation_path }

/-- All four public-access flags explicitly true. -/
def pabAllTrue : PABConfig :=
  { blockPublicAcls := some true
    ignorePublicAcls := some true
    blockPublicPolicy := some true
    restrictPublicBuckets := some true }

/-- One active encryption rule. -/
def encOn : EncryptionConfig := { serverSideEncryptionRules := some ["AES256"] }

/-- Versioning enabled. -/
def versOn : VersioningConfig := { status := some "Enabled" }

/-- A bucket that passes all three checks, both sinks healthy. -/
def envCompliant (name : String) : BucketEnv :=
  { name := name
    pab := S3Response.ok pabAllTrue
    encryption := S3Response.ok encOn
    versioning := S3Response.ok versOn
    evidenceDeliveryOk := true
    remediationSendOk := true }

/-- A bucket failing only the versioning check (status `Suspended`). -/
def envVersFail (name : String) : BucketEnv :=
  { envCompliant name with versioning := S3Response.ok { status := some "Suspended" } }

/-- A bucket failing only the encryption check (configuration absent:
the collaborator signals the recognized not-found error code). -/
def envEncFail (name : String) : BucketEnv :=
  { envCompliant name with
      encryption := S3Response.clientError "ServerSideEncryptionConfigurationNotFoundError" }

/-- A bucket failing both the public-access-block check (configuration
absent) and the versioning check. -/
def envTwoFail (name : String) : BucketEnv :=
  { envCompliant name with
      pab := S3Response.clientError "NoSuchPublicAccessBlockConfiguration"
      versioning := S3Response.ok { status := none } }

/-- A bucket whose public-access-block fetch is denied: an unrecognized
collaborator condition, which the check re-raises. -/
def envAccessDenied (name : String) : BucketEnv :=
  { envCompliant name with pab := S3Response.clientError "AccessDenied" }

/-- A compliant bucket whose evidence delivery fails. -/
def envDeliveryFail (name : String) : BucketEnv :=
  { envCompliant name with evidenceDeliveryOk := false }

/-- A bucket failing the versioning check whose evidence delivery fails. -/
def envDeliveryFailAndFail (name : String) : BucketEnv :=
  { envVersFail name with evidenceDeliveryOk := false }

example : (process_bucket cfgEx "t" (envCompliant "b1")).result = true := by decide
example : (process_bucket cfgEx "t" (envTwoFail "b1")).attemptedRemediation.length = 1 := by decide
example : (process_bucket cfgEx "t" (envAccessDenied "b1")).result = false := by decide
example :
    (lambda_handler cfgEx "t"
      (ListBucketsResponse.ok [envCompliant "b1", envAccessDenied "b2", envCompliant "b3"])).processed_buckets = 2 := by
  decide

/- Concrete findings used by witnesses. -/

/-- The PASS finding of the public-access-block check. -/
def fPABpass : Finding :=
  { check_id := "S3.1_Public_Access_Blocked", status := "PASS"
    details := "Public access block is enabled." }

/-- The FAIL finding of the public-access-block check when the
configuration is absent. -/
def fPABmissing : Finding :=
  { check_id := "S3.1_Public_Access_Blocked", status := "FAIL"
    details := "Public access block configuration is missing." }

/-- The PASS finding of the encryption check. -/
def fEncPass : Finding :=
  { check_id := "S3.5_Server_Side_Encryption", status := "PASS"
    details := "Default encryption (AES256 or KMS) is enabled." }

/-- The PASS finding of the versioning check. -/
def fVersPass : Finding :=
  { check_id := "S3.6_Bucket_Versioning", status := "PASS"
    details := "Bucket versioning is enabled." }

/-- The FAIL finding of the versioning check. -/
def fVersFail : Finding :=
  { check_id := "S3.6_Bucket_Versioning", status := "FAIL"
    details := "Bucket versioning is not enabled." }


/-- True when all three checks of `process_bucket`'s try-block complete
without raising (the success side of `bucket_findings`). -/
def checks_succeeded (env : BucketEnv) : Bool :=
  match bucket_findings env with
  | Except.ok _ => true
  | Except.error _ => false

/-- Whether `needle` occurs as a contiguous subsequence of `hay`
(character-level substring test, used to ask whether an identifier
appears anywhere in a returned body). -/
def containsSeq (needle : List Char) : List Char → Bool
  | [] => needle.isEmpty
  | c :: t => needle.isPrefixOf (c :: t) || containsSeq needle t

/-- Modelled from the spec: the returned summary "reports the ordered
list of identifiers of resources that could not be processed" is read
as: the identifier of a failed resource occurs in the returned body.
This predicate asks whether a string occurs in either body field. -/
def body_mentions (b : LambdaBody) (s : String) : Bool :=
  containsSeq s.data (b.message.getD "").data || containsSeq s.data (b.error.getD "").data

/-- The three-resource scenario of the spec's testable property: the
second resource raises a processing error (access denied on the
public-access-block fetch). -/
def scenarioBuckets : List BucketEnv :=
  [envCompliant "b1", envAccessDenied "b2", envCompliant "b3"]

/- Helper lemmas shared by the claim theorems. -/

/-- The string literals PASS and FAIL are distinct. -/
theorem pass_ne_fail : ("PASS" : String) ≠ "FAIL" := by decide

/-- A finding returned (not raised) by the public-access-block check has
status PASS or FAIL. -/
theorem check_public_access_block_status_binary (resp : S3Response PABConfig) (f : Finding)
    (h : check_public_access_block resp = Except.ok f) :
    f.status = "PASS" ∨ f.status = "FAIL" := by
  cases resp with
  | ok config =>
      simp only [check_public_access_block] at h
      split at h <;> injection h with h <;> rw [← h] <;> simp
  | clientError code =>
      simp only [check_public_access_block] at h
      split at h
      · injection h with h
        rw [← h]
        simp
      · exact Except.noConfusion h

/-- A finding returned by the encryption check has status PASS or FAIL. -/
theorem check_default_encryption_status_binary (resp : S3Response EncryptionConfig) (f : Finding)
    (h : check_default_encryption resp = Except.ok f) :
    f.status = "PASS" ∨ f.status = "FAIL" := by
  cases resp with
  | ok config =>
      simp only [check_default_encryption] at h
      split at h <;> injection h with h <;> rw [← h] <;> simp
  | clientError code =>
      simp only [check_default_encryption] at h
      split at h
      · injection h with h
        rw [← h]
        simp
      · exact Except.noConfusion h

/-- A finding returned by the versioning check has status PASS or FAIL. -/
theorem check_bucket_versioning_status_binary (resp : S3Response VersioningConfig) (f : Finding)
    (h : check_bucket_versioning resp = Except.ok f) :
    f.status = "PASS" ∨ f.status = "FAIL" := by
  cases resp with
  | ok config =>
      simp only [check_bucket_versioning] at h
      split at h <;> injection h with h <;> rw [← h] <;> simp
  | clientError code =>
      simp only [check_bucket_versioning] at h
      exact Except.noConfusion h

/-- `bucket_findings` succeeds exactly when all three checks return a
finding, and then the findings list is those three in registry order. -/
theorem bucket_findings_ok_iff (env : BucketEnv) (fs : List Finding) :
    bucket_findings env = Except.ok fs ↔
      ∃ f1 f2 f3, check_public_access_block env.pab = Except.ok f1 ∧
        check_default_encryption env.encryption = Except.ok f2 ∧
        check_bucket_versioning env.versioning = Except.ok f3 ∧
        fs = [f1, f2, f3] := by
  unfold bucket_findings
  cases h1 : check_public_access_block env.pab <;>
    cases h2 : check_default_encryption env.encryption <;>
      cases h3 : check_bucket_versioning env.versioning <;>
        simp [h1, h2, h3, Bind.bind, Except.bind, pure, Except.pure, eq_comm]

/-- Every finding in a successful `bucket_findings` list has status PASS
or FAIL. -/
theorem bucket_findings_status_binary (env : BucketEnv) (fs : List Finding)
    (h : bucket_findings env = Except.ok fs) :
    ∀ f ∈ fs, f.status = "PASS" ∨ f.status = "FAIL" := by
  rcases (bucket_findings_ok_iff env fs).mp h with ⟨f1, f2, f3, h1, h2, h3, rfl⟩
  intro f hf
  simp only [List.mem_cons, List.not_mem_nil, or_false] at hf
  rcases hf with rfl | rfl | rfl
  · exact check_public_access_block_status_binary _ _ h1
  · exact check_default_encryption_status_binary _ _ h2
  · exact check_bucket_versioning_status_binary _ _ h3

/-- The aggregated status is always one of the two literals. -/
theorem overall_status_of_binary (fs : List Finding) :
    overall_status_of fs = "PASS" ∨ overall_status_of fs = "FAIL" := by
  unfold overall_status_of
  split <;> simp

/-- For binary-status findings, the aggregated status is FAIL iff some
finding is FAIL, and PASS iff none is. -/
theorem overall_status_of_spec (fs : List Finding)
    (hb : ∀ f ∈ fs, f.status = "PASS" ∨ f.status = "FAIL") :
    (overall_status_of fs = "FAIL" ↔ ∃ f ∈ fs, f.status = "FAIL") ∧
      (overall_status_of fs = "PASS" ↔ ¬ ∃ f ∈ fs, f.status = "FAIL") := by
  unfold overall_status_of
  cases hall : fs.all (fun f => f.status == "PASS") with
  | true =>
      have hno : ¬ ∃ f ∈ fs, f.status = "FAIL" := by
        rintro ⟨f, hf, hFAIL⟩
        have hP := List.all_eq_true.mp hall f hf
        simp only [beq_iff_eq] at hP
        rw [hFAIL] at hP
        exact absurd hP (by decide)
      simp [hno]
  | false =>
      have hsome : ∃ f ∈ fs, f.status = "FAIL" := by
        have hex := List.all_eq_false.mp hall
        rcases hex with ⟨f, hf, hne⟩
        simp only [beq_iff_eq] at hne
        rcases hb f hf with hP | hF
        · exact absurd hP hne
        · exact ⟨f, hf, hF⟩
      simp [hsome]

/-- Evaluation of `process_bucket` when the checks succeed. -/
theorem process_bucket_ok (config : AppConfig) (now : String) (env : BucketEnv)
    (fs : List Finding) (h : bucket_findings env = Except.ok fs) :
    process_bucket config now env =
      { result := true
        attemptedEvidence :=
          [create_cce_payload config now ("arn:aws:s3:::" ++ env.name) fs (overall_status_of fs)]
        deliveredEvidence :=
          if env.evidenceDeliveryOk then
            [create_cce_payload config now ("arn:aws:s3:::" ++ env.name) fs (overall_status_of fs)]
          else []
        attemptedRemediation :=
          if overall_status_of fs = "FAIL" then
            [(trigger_remediation config now env.remediationSendOk ("arn:aws:s3:::" ++ env.name)).1]
          else []
        logs :=
          send_cce_to_vanguard env.evidenceDeliveryOk
            (create_cce_payload config now ("arn:aws:s3:::" ++ env.name) fs (overall_status_of fs)) ++
          (if overall_status_of fs = "FAIL" then
            (trigger_remediation config now env.remediationSendOk ("arn:aws:s3:::" ++ env.name)).2
          else []) } := by
  rcases overall_status_of_binary fs with hst | hst <;>
    simp [process_bucket, h, hst, pass_ne_fail]

/-- Evaluation of `process_bucket` when a check raises. -/
theorem process_bucket_err (config : AppConfig) (now : String) (env : BucketEnv)
    (e : String) (h : bucket_findings env = Except.error e) :
    process_bucket config now env =
      { result := false
        attemptedEvidence := []
        deliveredEvidence := []
        attemptedRemediation := []
        logs := ["Failed to process bucket " ++ env.name ++ ": " ++ e] } := by
  unfold process_bucket
  rw [h]

/-- Claim C1: for every resource whose three rule checks all complete
without a processing error, the computed overall status (the `status`
of the single emitted evidence payload) is FAIL if and only if at least
one of its findings has status FAIL, and is PASS otherwise. -/
theorem C1_overall_status_iff_some_fail (config : AppConfig) (now : String) (env : BucketEnv)
    (fs : List Finding) (h : bucket_findings env = Except.ok fs) :
    ∃ p, (process_bucket config now env).attemptedEvidence = [p] ∧
      p.findings = fs ∧
      (p.status = "FAIL" ↔ ∃ f ∈ fs, f.status = "FAIL") ∧
      (p.status = "PASS" ↔ ¬ ∃ f ∈ fs, f.status = "FAIL") := by
  have hb := bucket_findings_status_binary env fs h
  have hspec := overall_status_of_spec fs hb
  rw [process_bucket_ok config now env fs h]
  exact ⟨_, rfl, rfl, hspec.1, hspec.2⟩

/-- Witness for C1: a bucket failing exactly the versioning check. -/
theorem C1_overall_status_iff_some_fail_witness :
    ∃ p, (process_bucket cfgEx "t" (envVersFail "b1")).attemptedEvidence = [p] ∧
      p.findings = [fPABpass, fEncPass, fVersFail] ∧
      (p.status = "FAIL" ↔ ∃ f ∈ [fPABpass, fEncPass, fVersFail], f.status = "FAIL") ∧
      (p.status = "PASS" ↔ ¬ ∃ f ∈ [fPABpass, fEncPass, fVersFail], f.status = "FAIL") :=
  C1_overall_status_iff_some_fail cfgEx "t" (envVersFail "b1") [fPABpass, fEncPass, fVersFail] rfl

/-- Claim C2: for every resource processed without a processing error, a
remediation request is issued iff the resource's overall status is FAIL,
and exactly one request is issued per such resource per invocation, even
when several findings are FAIL. -/
theorem C2_remediation_iff_fail (config : AppConfig) (now : String) (env : BucketEnv)
    (fs : List Finding) (h : bucket_findings env = Except.ok fs) :
    ∃ p, (process_bucket config now env).attemptedEvidence = [p] ∧
      ((process_bucket config now env).attemptedRemediation.length = 1 ↔ p.status = "FAIL") ∧
      ((process_bucket config now env).attemptedRemediation.length = 0 ↔ p.status = "PASS") := by
  rw [process_bucket_ok config now env fs h]
  refine ⟨_, rfl, ?_, ?_⟩ <;>
    rcases overall_status_of_binary fs with hst | hst <;>
      simp [create_cce_payload, hst, pass_ne_fail]

/-- Witness for C2: a bucket with two FAIL findings still gets exactly
one remediation request. -/
theorem C2_remediation_iff_fail_witness :
    ∃ p, (process_bucket cfgEx "t" (envTwoFail "b1")).attemptedEvidence = [p] ∧
      ((process_bucket cfgEx "t" (envTwoFail "b1")).attemptedRemediation.length = 1 ↔
        p.status = "FAIL") ∧
      ((process_bucket cfgEx "t" (envTwoFail "b1")).attemptedRemediation.length = 0 ↔
        p.status = "PASS") :=
  C2_remediation_iff_fail cfgEx "t" (envTwoFail "b1") [fPABmissing, fEncPass, fVersFail] rfl

/-- For `o : Option Bool`, `o.getD false = true` means the flag is
explicitly present and true. -/
theorem getD_false_eq_true_iff (o : Option Bool) : o.getD false = true ↔ o = some true := by
  cases o with
  | none => simp
  | some b => cases b <;> simp

/-- The compliance condition of `check_public_access_block`, as the
conjunction of the four flags being explicitly true. -/
theorem pab_compliant_iff (cfg : PABConfig) :
    (cfg.blockPublicAcls.getD false && cfg.ignorePublicAcls.getD false &&
     cfg.blockPublicPolicy.getD false && cfg.restrictPublicBuckets.getD false) = true ↔
      (cfg.blockPublicAcls = some true ∧ cfg.ignorePublicAcls = some true ∧
       cfg.blockPublicPolicy = some true ∧ cfg.restrictPublicBuckets = some true) := by
  simp [Bool.and_eq_true, getD_false_eq_true_iff, and_assoc]

/-- Claim C4: the public-access-block check returns PASS iff all four
flags are explicitly true; status is FAIL in every other returned case;
and the "no such configuration" signal yields a FAIL finding rather
than a raised error. -/
theorem C4_public_access_block_policy (cfg : PABConfig) :
    (∃ f, check_public_access_block (S3Response.ok cfg) = Except.ok f ∧
      (f.status = "PASS" ↔
        (cfg.blockPublicAcls = some true ∧ cfg.ignorePublicAcls = some true ∧
         cfg.blockPublicPolicy = some true ∧ cfg.restrictPublicBuckets = some true)) ∧
      (f.status = "FAIL" ↔
        ¬ (cfg.blockPublicAcls = some true ∧ cfg.ignorePublicAcls = some true ∧
           cfg.blockPublicPolicy = some true ∧ cfg.restrictPublicBuckets = some true))) ∧
    check_public_access_block (S3Response.clientError "NoSuchPublicAccessBlockConfiguration") =
      Except.ok fPABmissing := by
  constructor
  · by_cases hc : (cfg.blockPublicAcls.getD false && cfg.ignorePublicAcls.getD false &&
        cfg.blockPublicPolicy.getD false && cfg.restrictPublicBuckets.getD false) = true
    · refine ⟨_, rfl, ?_, ?_⟩ <;>
        rw [← pab_compliant_iff] <;> simp [check_public_access_block, hc]
    · refine ⟨_, rfl, ?_, ?_⟩ <;>
        rw [← pab_compliant_iff] <;> simp [check_public_access_block, hc]
  · rfl

/-- Claim C9: `process_bucket` is total (models: never propagates an
exception): its result is `true` exactly when the three checks succeed,
independently of the delivery and dispatch outcomes; consequently the
invocation's processed count counts exactly the buckets whose checks
succeed, delivered or not. -/
theorem C9_result_iff_checks_ok (config : AppConfig) (now : String) (env : BucketEnv)
    (dOk rOk : Bool) (buckets : List BucketEnv) :
    ((process_bucket config now env).result = checks_succeeded env) ∧
    ((process_bucket config now
        { env with evidenceDeliveryOk := dOk, remediationSendOk := rOk }).result =
      checks_succeeded env) ∧
    ((lambda_handler config now (ListBucketsResponse.ok buckets)).processed_buckets =
      buckets.countP (fun b => checks_succeeded b)) := by
  have key : ∀ e : BucketEnv, (process_bucket config now e).result = checks_succeeded e := by
    intro e
    unfold checks_succeeded
    cases hbf : bucket_findings e with
    | ok fs => rw [process_bucket_ok config now e fs hbf]
    | error er => rw [process_bucket_err config now e er hbf]
  refine ⟨key env, ?_, ?_⟩
  · have : checks_succeeded { env with evidenceDeliveryOk := dOk, remediationSendOk := rOk } =
        checks_succeeded env := rfl
    rw [key _, this]
  · simp only [lambda_handler, List.countP_map]
    exact List.countP_congr (fun b _ => by simp [Function.comp, key b])

/-- Claim C10: for every bucket processed without error, the target id
in the evidence payload and in every remediation message is the string
`arn:aws:s3:::` followed by the bucket name. -/
theorem C10_target_ids_match (config : AppConfig) (now : String) (env : BucketEnv)
    (fs : List Finding) (h : bucket_findings env = Except.ok fs) :
    (∀ p ∈ (process_bucket config now env).attemptedEvidence,
      p.target_id = "arn:aws:s3:::" ++ env.name) ∧
    (∀ m ∈ (process_bucket config now env).attemptedRemediation,
      m.target_id = "arn:aws:s3:::" ++ env.name) := by
  rw [process_bucket_ok config now env fs h]
  constructor
  · rintro p hp
    rcases List.mem_singleton.mp hp with rfl
    rfl
  · rintro m hm
    by_cases hst : overall_status_of fs = "FAIL"
    · simp only [hst, if_pos, List.mem_singleton] at hm
      rcases hm with rfl
      rfl
    · simp [hst] at hm

/-- Witness for C10 at a failing bucket (so a remediation message
exists and its target is checked too). -/
theorem C10_target_ids_match_witness :
    (∀ p ∈ (process_bucket cfgEx "t" (envVersFail "b7")).attemptedEvidence,
      p.target_id = "arn:aws:s3:::" ++ (envVersFail "b7").name) ∧
    (∀ m ∈ (process_bucket cfgEx "t" (envVersFail "b7")).attemptedRemediation,
      m.target_id = "arn:aws:s3:::" ++ (envVersFail "b7").name) :=
  C10_target_ids_match cfgEx "t" (envVersFail "b7") [fPABpass, fEncPass, fVersFail] rfl

/-- Claim C7: when all three checks return findings, every one of them
contributes to the single evidence payload in registry order, even when
an earlier finding is FAIL; a rule-level error suppresses evidence for
that resource only, and every other listed resource is still processed. -/
theorem C7_no_fail_fast (config : AppConfig) (now : String) (env env2 : BucketEnv)
    (f1 f2 f3 : Finding) (e : String) (pre post : List BucketEnv)
    (h1 : check_public_access_block env.pab = Except.ok f1)
    (h2 : check_default_encryption env.encryption = Except.ok f2)
    (h3 : check_bucket_versioning env.versioning = Except.ok f3)
    (herr : bucket_findings env2 = Except.error e) :
    (∃ p, (process_bucket config now env).attemptedEvidence = [p] ∧
      p.findings = [f1, f2, f3]) ∧
    (process_bucket config now env2).attemptedEvidence = [] ∧
    ((lambda_handler config now (ListBucketsResponse.ok (pre ++ env2 :: post))).outcomes =
      pre.map (process_bucket config now) ++
        process_bucket config now env2 :: post.map (process_bucket config now)) := by
  have h : bucket_findings env = Except.ok [f1, f2, f3] :=
    (bucket_findings_ok_iff env [f1, f2, f3]).mpr ⟨f1, f2, f3, h1, h2, h3, rfl⟩
  refine ⟨?_, ?_, ?_⟩
  · rw [process_bucket_ok config now env [f1, f2, f3] h]
    exact ⟨_, rfl, rfl⟩
  · rw [process_bucket_err config now env2 e herr]
  · simp [lambda_handler]

/-- Witness for C7: the first finding is FAIL (missing public access
block) yet all three findings appear; a second bucket with a denied
fetch yields no evidence while its neighbours are still processed. -/
theorem C7_no_fail_fast_witness :
    (∃ p, (process_bucket cfgEx "t" (envTwoFail "b1")).attemptedEvidence = [p] ∧
      p.findings = [fPABmissing, fEncPass, fVersFail]) ∧
    (process_bucket cfgEx "t" (envAccessDenied "b2")).attemptedEvidence = [] ∧
    ((lambda_handler cfgEx "t"
        (ListBucketsResponse.ok ([envCompliant "b0"] ++ envAccessDenied "b2" :: [envCompliant "b3"]))).outcomes =
      [envCompliant "b0"].map (process_bucket cfgEx "t") ++
        process_bucket cfgEx "t" (envAccessDenied "b2") ::
          [envCompliant "b3"].map (process_bucket cfgEx "t")) :=
  C7_no_fail_fast cfgEx "t" (envTwoFail "b1") (envAccessDenied "b2")
    fPABmissing fEncPass fVersFail "AccessDenied"
    [envCompliant "b0"] [envCompliant "b3"] rfl rfl rfl rfl

/-- Claim C6: a collaborator condition other than the recognized
not-configured signals is re-raised by each check (a processing error,
not a FAIL finding); a resource whose checks raised gets no evidence
and no remediation, is logged as failed and not counted, and the loop
still processes every other listed resource. -/
theorem C6_processing_error_isolation (config : AppConfig) (now : String) (env : BucketEnv)
    (e code : String) (pre post : List BucketEnv)
    (herr : bucket_findings env = Except.error e)
    (hc1 : code ≠ "NoSuchPublicAccessBlockConfiguration")
    (hc2 : code ≠ "ServerSideEncryptionConfigurationNotFoundError") :
    check_public_access_block (S3Response.clientError code) = Except.error code ∧
    check_default_encryption (S3Response.clientError code) = Except.error code ∧
    check_bucket_versioning (S3Response.clientError code) = Except.error code ∧
    (process_bucket config now env).attemptedEvidence = [] ∧
    (process_bucket config now env).deliveredEvidence = [] ∧
    (process_bucket config now env).attemptedRemediation = [] ∧
    (process_bucket config now env).result = false ∧
    ("Failed to process bucket " ++ env.name ++ ": " ++ e) ∈ (process_bucket config now env).logs ∧
    ((lambda_handler config now (ListBucketsResponse.ok (pre ++ env :: post))).outcomes =
      pre.map (process_bucket config now) ++
        process_bucket config now env :: post.map (process_bucket config now)) ∧
    ((lambda_handler config now (ListBucketsResponse.ok (pre ++ env :: post))).processed_buckets =
      (pre.map (process_bucket config now)).countP (fun o => o.result) +
        (post.map (process_bucket config now)).countP (fun o => o.result)) := by
  have herr2 := process_bucket_err config now env e herr
  refine ⟨?_, ?_, rfl, ?_, ?_, ?_, ?_, ?_, ?_, ?_⟩
  · simp [check_public_access_block, hc1]
  · simp [check_default_encryption, hc2]
  · rw [herr2]
  · rw [herr2]
  · rw [herr2]
  · rw [herr2]
  · rw [herr2]
    exact List.mem_singleton.mpr rfl
  · simp [lambda_handler]
  · simp [lambda_handler, List.countP_append, List.countP_cons, herr2]

/-- Witness for C6: access denied on the public-access-block fetch of
the middle bucket of three. -/
theorem C6_processing_error_isolation_witness :
    check_public_access_block (S3Response.clientError "AccessDenied") =
      Except.error "AccessDenied" ∧
    check_default_encryption (S3Response.clientError "AccessDenied") =
      Except.error "AccessDenied" ∧
    check_bucket_versioning (S3Response.clientError "AccessDenied") =
      Except.error "AccessDenied" ∧
    (process_bucket cfgEx "t" (envAccessDenied "b2")).attemptedEvidence = [] ∧
    (process_bucket cfgEx "t" (envAccessDenied "b2")).deliveredEvidence = [] ∧
    (process_bucket cfgEx "t" (envAccessDenied "b2")).attemptedRemediation = [] ∧
    (process_bucket cfgEx "t" (envAccessDenied "b2")).result = false ∧
    ("Failed to process bucket " ++ (envAccessDenied "b2").name ++ ": " ++ "AccessDenied") ∈
      (process_bucket cfgEx "t" (envAccessDenied "b2")).logs ∧
    ((lambda_handler cfgEx "t"
        (ListBucketsResponse.ok ([envCompliant "b1"] ++ envAccessDenied "b2" :: [envCompliant "b3"]))).outcomes =
      [envCompliant "b1"].map (process_bucket cfgEx "t") ++
        process_bucket cfgEx "t" (envAccessDenied "b2") ::
          [envCompliant "b3"].map (process_bucket cfgEx "t")) ∧
    ((lambda_handler cfgEx "t"
        (ListBucketsResponse.ok ([envCompliant "b1"] ++ envAccessDenied "b2" :: [envCompliant "b3"]))).processed_buckets =
      ([envCompliant "b1"].map (process_bucket cfgEx "t")).countP (fun o => o.result) +
        ([envCompliant "b3"].map (process_bucket cfgEx "t")).countP (fun o => o.result)) :=
  C6_processing_error_isolation cfgEx "t" (envAccessDenied "b2") "AccessDenied" "AccessDenied"
    [envCompliant "b1"] [envCompliant "b3"] rfl (by decide) (by decide)

/-- Claim C8: a failed evidence delivery is logged, the resource still
counts as processed, the remediation decision is still evaluated
(dispatch iff FAIL), and subsequent resources are still processed. -/
theorem C8_delivery_failure_nonfatal (config : AppConfig) (now : String) (env : BucketEnv)
    (fs : List Finding) (pre post : List BucketEnv)
    (h : bucket_findings env = Except.ok fs)
    (hdel : env.evidenceDeliveryOk = false) :
    (process_bucket config now env).result = true ∧
    ("Failed to send CCE to Vanguard for target " ++ ("arn:aws:s3:::" ++ env.name)) ∈
      (process_bucket config now env).logs ∧
    (process_bucket config now env).deliveredEvidence = [] ∧
    (∃ p, (process_bucket config now env).attemptedEvidence = [p] ∧
      ((process_bucket config now env).attemptedRemediation.length = 1 ↔ p.status = "FAIL")) ∧
    ((lambda_handler config now (ListBucketsResponse.ok (pre ++ env :: post))).outcomes =
      pre.map (process_bucket config now) ++
        process_bucket config now env :: post.map (process_bucket config now)) ∧
    ((lambda_handler config now (ListBucketsResponse.ok (pre ++ env :: post))).processed_buckets =
      (pre.map (process_bucket config now)).countP (fun o => o.result) +
        (post.map (process_bucket config now)).countP (fun o => o.result) + 1) := by
  have hok := process_bucket_ok config now env fs h
  refine ⟨?_, ?_, ?_, ?_, ?_, ?_⟩
  · rw [hok]
  · rw [hok]
    simp [send_cce_to_vanguard, hdel, create_cce_payload]
  · rw [hok]
    simp [hdel]
  · rw [hok]
    refine ⟨_, rfl, ?_⟩
    rcases overall_status_of_binary fs with hst | hst <;>
      simp [create_cce_payload, hst, pass_ne_fail]
  · simp [lambda_handler]
  · simp [lambda_handler, List.countP_append, List.countP_cons, hok]
    omega

/-- Witness for C8: a versioning-failing bucket whose evidence delivery
fails still counts as processed, still triggers remediation, and the
following bucket is still processed. -/
theorem C8_delivery_failure_nonfatal_witness :
    (process_bucket cfgEx "t" (envDeliveryFailAndFail "b1")).result = true ∧
    ("Failed to send CCE to Vanguard for target " ++
        ("arn:aws:s3:::" ++ (envDeliveryFailAndFail "b1").name)) ∈
      (process_bucket cfgEx "t" (envDeliveryFailAndFail "b1")).logs ∧
    (process_bucket cfgEx "t" (envDeliveryFailAndFail "b1")).deliveredEvidence = [] ∧
    (∃ p, (process_bucket cfgEx "t" (envDeliveryFailAndFail "b1")).attemptedEvidence = [p] ∧
      ((process_bucket cfgEx "t" (envDeliveryFailAndFail "b1")).attemptedRemediation.length = 1 ↔
        p.status = "FAIL")) ∧
    ((lambda_handler cfgEx "t"
        (ListBucketsResponse.ok ([] ++ envDeliveryFailAndFail "b1" :: [envCompliant "b3"]))).outcomes =
      [].map (process_bucket cfgEx "t") ++
        process_bucket cfgEx "t" (envDeliveryFailAndFail "b1") ::
          [envCompliant "b3"].map (process_bucket cfgEx "t")) ∧
    ((lambda_handler cfgEx "t"
        (ListBucketsResponse.ok ([] ++ envDeliveryFailAndFail "b1" :: [envCompliant "b3"]))).processed_buckets =
      ([].map (process_bucket cfgEx "t")).countP (fun o => o.result) +
        ([envCompliant "b3"].map (process_bucket cfgEx "t")).countP (fun o => o.result) + 1) :=
  C8_delivery_failure_nonfatal cfgEx "t" (envDeliveryFailAndFail "b1")
    [fPABpass, fEncPass, fVersFail] [] [envCompliant "b3"] rfl rfl

/-- Claim C3 counterexample: in the three-resource scenario where only
the second raises a processing error, the handler's returned value is a
200 whose body holds only the count message; the identifier of the
failed resource occurs nowhere in the returned body, so the claimed
`failed_to_process = [second-resource-id]` list is not part of the
returned summary. -/
theorem C3_no_failed_list_returned :
    (lambda_handler cfgEx "t" (ListBucketsResponse.ok scenarioBuckets)).statusCode = 200 ∧
    (lambda_handler cfgEx "t" (ListBucketsResponse.ok scenarioBuckets)).processed_buckets = 2 ∧
    (lambda_handler cfgEx "t" (ListBucketsResponse.ok scenarioBuckets)).body =
      { message := some "Successfully processed 2 buckets.", error := none } ∧
    body_mentions (lambda_handler cfgEx "t" (ListBucketsResponse.ok scenarioBuckets)).body "b2" =
      false := by
  decide

/-- Claim C3 as amended: the final result reports the count of
successfully processed resources in its message, but the identifiers of
resources that could not be processed are only logged, never returned;
in the three-resource scenario with the second failing, the processed
count is 2, evidence is emitted for the first and third resources only,
and the second resource's failure appears in the logs. -/
theorem C3_summary_reports_count_only :
    (∀ (config : AppConfig) (now : String) (buckets : List BucketEnv),
      (lambda_handler config now (ListBucketsResponse.ok buckets)).statusCode = 200 ∧
      (lambda_handler config now (ListBucketsResponse.ok buckets)).body.error = none ∧
      (lambda_handler config now (ListBucketsResponse.ok buckets)).body.message =
        some ("Successfully processed " ++
          toString (lambda_handler config now (ListBucketsResponse.ok buckets)).processed_buckets ++
          " buckets.")) ∧
    (lambda_handler cfgEx "t" (ListBucketsResponse.ok scenarioBuckets)).processed_buckets = 2 ∧
    ((lambda_handler cfgEx "t" (ListBucketsResponse.ok scenarioBuckets)).outcomes.map
      (fun o => o.attemptedEvidence.length) = [1, 0, 1]) ∧
    ((lambda_handler cfgEx "t" (ListBucketsResponse.ok scenarioBuckets)).outcomes.map
      (fun o => o.logs) =
        [["Successfully sent CCE to Vanguard for target arn:aws:s3:::b1"],
         ["Failed to process bucket b2: AccessDenied"],
         ["Successfully sent CCE to Vanguard for target arn:aws:s3:::b3"]]) := by
  refine ⟨fun config now buckets => ⟨rfl, rfl, rfl⟩, ?_, ?_, ?_⟩ <;> decide

/-- Claim C5 counterexample: a bucket failing only the versioning check
and a bucket failing only the encryption check both receive a
remediation request referencing the same remediation path — the single
configured value, here the public-access-fix playbook — so the
referenced procedure identifier is not specific to the failing check
category. -/
theorem C5_same_path_for_all_categories :
    (process_bucket cfgEx "t" (envVersFail "b1")).attemptedRemediation =
      [{ target_id := "arn:aws:s3:::b1", remediation_path := default_remediation_path,
         timestamp := "t" }] ∧
    (process_bucket cfgEx "t" (envEncFail "b2")).attemptedRemediation =
      [{ target_id := "arn:aws:s3:::b2", remediation_path := default_remediation_path,
         timestamp := "t" }] := by
  decide

/-- Claim C5 as amended: every remediation request issued references
the single configured `remediation_path` (defaulting to the S3
public-access-fix playbook), regardless of which check category failed;
there is no category-keyed table, and exactly one request is issued for
the resource. -/
theorem C5_single_static_path (config : AppConfig) (now : String) (env : BucketEnv)
    (m : RemediationMessage)
    (hm : m ∈ (process_bucket config now env).attemptedRemediation) :
    m.remediation_path = config.remediation_path ∧
    m.target_id = "arn:aws:s3:::" ++ env.name ∧
    (process_bucket config now env).attemptedRemediation.length = 1 := by
  cases hbf : bucket_findings env with
  | ok fs =>
      rw [process_bucket_ok config now env fs hbf] at hm ⊢
      by_cases hst : overall_status_of fs = "FAIL"
      · simp only [hst, if_pos, List.mem_singleton] at hm ⊢
        rcases hm with rfl
        exact ⟨rfl, rfl, rfl⟩
      · simp [hst] at hm
  | error e =>
      rw [process_bucket_err config now env e hbf] at hm
      simp at hm

/-- Witness for the amended C5 at a versioning-failing bucket. -/
theorem C5_single_static_path_witness :
    ({ target_id := "arn:aws:s3:::b1", remediation_path := default_remediation_path,
       timestamp := "t" } : RemediationMessage).remediation_path = cfgEx.remediation_path ∧
    ({ target_id := "arn:aws:s3:::b1", remediation_path := default_remediation_path,
       timestamp := "t" } : RemediationMessage).target_id =
      "arn:aws:s3:::" ++ (envVersFail "b1").name ∧
    (process_bucket cfgEx "t" (envVersFail "b1")).attemptedRemediation.length = 1 :=
  C5_single_static_path cfgEx "t" (envVersFail "b1")
    { target_id := "arn:aws:s3:::b1", remediation_path := default_remediation_path,
      timestamp := "t" } (by decide)
